import Mathlib

/-!
Verification of the specification of a repository of two scikit-learn /
plotly example notebooks:

* a Gaussian Process regression notebook (noiseless and noisy sections), and
* a "Scalability of Approximate Nearest Neighbors" benchmark notebook.

The notebooks are sequential scripts of library calls.  We embed them as

* a statement-level abstract syntax (`Stmt`) whose atoms (`Step`) record,
  for each executed top-level statement translated from the source, its
  pipeline kind (data generation, estimator call, chart-trace construction,
  remote plotting call, timer read, glue) and, for library calls, the call
  with its keyword arguments and their provenance (literal constant,
  derived only from literals, or data-dependent);
* executable functional models of the authored helper `data_to_plotly`
  (an index loop with an explicit loop state), the helper `f`, the trace
  construction of the confidence-interval scatter `p4`, and the benchmark
  loop's metric accumulation.
-/

namespace NB

/-- Pipeline kind of one executed top-level statement, following the
spec's four-step pipeline (a) dataset generation / loading,
(b) estimator calls, (c) chart trace formatting, (d) remote plotting call;
`timerRead` marks `time.time()` reads, `glue` marks other glue statements
(imports, list initialisations, appends, prints, shell lines),
`fileWrite` would mark a write to a local persistent store (never used by
either notebook). -/
inductive StepKind where
  | dataGen
  | estimator
  | traceFormat
  | remotePlot
  | timerRead
  | glue
  | fileWrite
deriving DecidableEq

/-- Provenance of a value supplied as a keyword argument. -/
inductive ArgSrc where
  /-- the value is written as a literal constant at the call site -/
  | literal
  /-- the value is a variable whose value was built only from literal
  constants (the `kernel` object, the `layout` object) -/
  | literalDerived
  /-- the value is computed from runtime data -/
  | dataDerived
deriving DecidableEq

/-- A keyword argument supplied to a library call: its name, the provenance
of the supplied value, and whether it is a data channel (the `x`/`y`/
`error_y` arrays of a trace, the `data`/`fig` contents of a figure) rather
than a configuration parameter. -/
structure KwArg where
  argName : String
  src : ArgSrc
  dataChannel : Bool
deriving DecidableEq

/-- The external library calls appearing in the notebooks. -/
inductive ApiCall where
  /-- kernel construction `C(1.0, (1e-3, 1e3)) * RBF(10, (1e-2, 1e2))` -/
  | kernelConstruct (kwargs : List KwArg)
  /-- estimator construction (`GaussianProcessRegressor`, `LSHForest`,
  `NearestNeighbors`) -/
  | estimatorConstruct (cls : String) (kwargs : List KwArg)
  /-- `fit` call: whether a sample matrix X and a target vector y are
  passed -/
  | fit (hasX hasY : Bool)
  /-- `predict` call: the value of the `return_std` keyword if passed -/
  | predict (returnStd : Option Bool)
  /-- `kneighbors` call: the value of the `return_distance` keyword if
  passed -/
  | kneighbors (returnDistance : Option Bool)
  /-- plotting library call (`go.Scatter`, `go.Layout`, `go.Figure`,
  `py.iplot`, `publisher.publish`) -/
  | plotCall (fn : String) (kwargs : List KwArg)
  /-- statement that is not a call into the ML or plotting library -/
  | nonCall
deriving DecidableEq

/-- One executed top-level statement of a notebook. -/
structure Step where
  kind : StepKind
  call : ApiCall
deriving DecidableEq

/-- Statement-level syntax of the authored notebook code.  `forLoop n b`
runs `b` exactly `n` times (the notebooks' loops have statically known
trip counts); `funDef` defines an authored function (its body is recorded
for control-flow counting but a definition executes no steps);
`tryCatch` and `ifElse` exist so that the absence of authored error
handling and branching is a fact about the translated programs, not about
the syntax. -/
inductive Stmt where
  | skip
  | atom (s : Step)
  | seq (a b : Stmt)
  | forLoop (n : Nat) (body : Stmt)
  | funDef (fname : String) (body : Stmt)
  | ifElse (cond : Step) (thn els : Stmt)
  | tryCatch (body handler : Stmt)

/-- Number of authored loops in a statement (function bodies included). -/
def countLoops : Stmt → Nat
  | .skip => 0
  | .atom _ => 0
  | .seq a b => countLoops a + countLoops b
  | .forLoop _ body => countLoops body + 1
  | .funDef _ body => countLoops body
  | .ifElse _ t e => countLoops t + countLoops e
  | .tryCatch b h => countLoops b + countLoops h

/-- Number of authored conditional branches. -/
def countIfs : Stmt → Nat
  | .skip => 0
  | .atom _ => 0
  | .seq a b => countIfs a + countIfs b
  | .forLoop _ body => countIfs body
  | .funDef _ body => countIfs body
  | .ifElse _ t e => countIfs t + countIfs e + 1
  | .tryCatch b h => countIfs b + countIfs h

/-- Whether the statement contains any authored exception handler. -/
def hasTry : Stmt → Bool
  | .skip => false
  | .atom _ => false
  | .seq a b => hasTry a || hasTry b
  | .forLoop _ body => hasTry body
  | .funDef _ body => hasTry body
  | .ifElse _ t e => hasTry t || hasTry e
  | .tryCatch _ _ => true

/-- The sequence of steps executed by a statement, given a branch oracle
`br` choosing conditional branches (no conditional occurs in either
notebook).  Function definitions execute nothing; a `tryCatch` body is
flattened without its handler (exercised only on failure). -/
def flatten (br : Step → Bool) : Stmt → List Step
  | .skip => []
  | .atom s => [s]
  | .seq a b => flatten br a ++ flatten br b
  | .forLoop n body => (List.replicate n (flatten br body)).flatten
  | .funDef _ _ => []
  | .ifElse c t e => c :: (if br c then flatten br t else flatten br e)
  | .tryCatch b _ => flatten br b

/-- Run a list of steps under a failure oracle `o` assigning to a step the
error it raises, if any: execution stops at the first raised error, which
becomes the result. -/
def runSteps (o : Step → Option Nat) : List Step → Except Nat Unit
  | [] => .ok ()
  | s :: rest =>
    match o s with
    | some e => .error e
    | none => runSteps o rest

mutual

/-- Execution of a statement under a failure oracle `o` and a branch
oracle `br`: library errors propagate through `seq` and `forLoop`;
a `tryCatch` (present in no notebook) would run its handler on failure. -/
def run (o : Step → Option Nat) (br : Step → Bool) : Stmt → Except Nat Unit
  | .skip => .ok ()
  | .atom s =>
    match o s with
    | some e => .error e
    | none => .ok ()
  | .seq a b =>
    match run o br a with
    | .ok _ => run o br b
    | .error e => .error e
  | .forLoop n body => runTimes o br body n
  | .funDef _ _ => .ok ()
  | .ifElse c t e =>
    match o c with
    | some err => .error err
    | none => if br c then run o br t else run o br e
  | .tryCatch b h =>
    match run o br b with
    | .error _ => run o br h
    | r => r

/-- Run a loop body `n` times, stopping at the first error. -/
def runTimes (o : Step → Option Nat) (br : Step → Bool) (body : Stmt) :
    Nat → Except Nat Unit
  | 0 => .ok ()
  | n + 1 =>
    match run o br body with
    | .ok _ => runTimes o br body n
    | .error e => .error e

end

/-! ### Step and argument abbreviations used by the translated traces -/

/-- A data-generation statement that calls no ML/plotting API. -/
def dg : Step := ⟨.dataGen, .nonCall⟩

/-- A glue statement (import, list initialisation, append, print, shell). -/
def gl : Step := ⟨.glue, .nonCall⟩

/-- A `time.time()` read (alone or inside an elapsed-time append). -/
def tmr : Step := ⟨.timerRead, .nonCall⟩

/-- An estimator-library call. -/
def est (c : ApiCall) : Step := ⟨.estimator, c⟩

/-- A chart-trace / layout / figure construction call. -/
def trc (fn : String) (ks : List KwArg) : Step := ⟨.traceFormat, .plotCall fn ks⟩

/-- A remote plotting-service call. -/
def rmt (fn : String) (ks : List KwArg) : Step := ⟨.remotePlot, .plotCall fn ks⟩

/-- A configuration keyword argument given as a literal constant. -/
def lit (n : String) : KwArg := ⟨n, .literal, false⟩

/-- A configuration keyword argument given as a variable built only from
literal constants. -/
def litv (n : String) : KwArg := ⟨n, .literalDerived, false⟩

/-- A data-channel argument holding computed data (trace x/y arrays,
error arrays, figure contents). -/
def datArg (n : String) : KwArg := ⟨n, .dataDerived, true⟩

/-- A configuration keyword argument computed from runtime data. -/
def datParam (n : String) : KwArg := ⟨n, .dataDerived, false⟩

/-- Chain a list of steps into a statement sequence. -/
def stmtOfSteps (l : List Step) : Stmt :=
  l.foldr (fun s acc => Stmt.seq (Stmt.atom s) acc) Stmt.skip

/-- Branch oracle used to flatten the programs (neither notebook contains
a conditional, so the choice is irrelevant). -/
def trueBr : Step → Bool := fun _ => true

end NB

namespace GPR

open NB

/-!
### The Gaussian Process regression notebook

Translated statement-by-statement from the executed code cells.
Import-only cells are recorded as single glue steps inside the sections
they open; the two authored function definitions (`f`, `data_to_plotly`)
execute no steps but their bodies are recorded for control-flow counting
(`data_to_plotly` contains one `for` loop whose trip count is the length
of its argument, recorded with a placeholder count since a definition is
not executed).
-/

/-- Steps of the noiseless section: the calculation cell
(seed, `X`, `y`, mesh `x`, kernel construction,
`GaussianProcessRegressor(kernel=kernel, n_restarts_optimizer=9)`,
`gp.fit(X, y)`, `gp.predict(x, return_std=True)`), the plotting cell
(`p1`..`p4`, `data`, `layout`, `fig`) and `py.iplot(fig)`. -/
def sec1 : List Step :=
  [ dg,                                   -- np.random.seed(1)
    dg,                                   -- X = np.atleast_2d([1., 3., 5., 6., 7., 8.]).T
    dg,                                   -- y = f(X).ravel()
    dg,                                   -- x = np.atleast_2d(np.linspace(0, 10, 1000)).T
    est (.kernelConstruct
      [lit "value", lit "value_bounds",
       lit "length_scale", lit "length_scale_bounds"]),
    est (.estimatorConstruct "GaussianProcessRegressor"
      [litv "kernel", lit "n_restarts_optimizer"]),
    est (.fit true true),
    est (.predict (some true)),
    trc "Scatter" [datArg "x", datArg "y", lit "mode", lit "line",
      lit "name"],                                        -- p1
    trc "Scatter" [datArg "x", datArg "y", lit "mode", lit "marker",
      lit "name"],                                        -- p2
    trc "Scatter" [datArg "x", datArg "y", lit "mode", lit "line",
      lit "name"],                                        -- p3
    trc "Scatter" [datArg "x", datArg "y", lit "mode", lit "line",
      lit "fill", lit "name"],                            -- p4
    ⟨.traceFormat, .nonCall⟩,             -- data = [p3, p4, p1, p2]
    trc "Layout" [lit "xaxis", lit "yaxis"],
    trc "Figure" [datArg "data", litv "layout"],
    rmt "iplot" [datArg "figure"] ]

/-- Steps of the noisy section: the calculation cell (`X`, `y`, `dy`,
`noise`, `y += noise`, `GaussianProcessRegressor(kernel=kernel,
alpha=(dy / y) ** 2, n_restarts_optimizer=10)`, fit, predict), the
plotting cell, `py.iplot(fig)`, and the trailing publishing cell
(two HTML displays, the pip shell line, `publisher.publish(...)`). -/
def sec2 : List Step :=
  [ dg,                                   -- X = np.linspace(0.1, 9.9, 20)
    dg,                                   -- X = np.atleast_2d(X).T
    dg,                                   -- y = f(X).ravel()
    dg,                                   -- dy = 0.5 + 1.0 * np.random.random(y.shape)
    dg,                                   -- noise = np.random.normal(0, dy)
    dg,                                   -- y += noise
    est (.estimatorConstruct "GaussianProcessRegressor"
      [litv "kernel", datParam "alpha", lit "n_restarts_optimizer"]),
    est (.fit true true),
    est (.predict (some true)),
    trc "Scatter" [datArg "x", datArg "y", lit "mode", lit "line",
      lit "name"],                                        -- p1
    trc "Scatter" [datArg "x", datArg "y", lit "mode", lit "marker",
      datArg "error_y", lit "name"],                      -- p2
    trc "Scatter" [datArg "x", datArg "y", lit "mode", lit "line",
      lit "name"],                                        -- p3
    trc "Scatter" [datArg "x", datArg "y", lit "mode", lit "line",
      lit "fill", lit "name"],                            -- p4
    ⟨.traceFormat, .nonCall⟩,             -- data = [p3, p4, p1, p2]
    trc "Layout" [lit "xaxis", lit "yaxis"],
    trc "Figure" [datArg "data", litv "layout"],
    rmt "iplot" [datArg "figure"],
    gl,                                   -- display(HTML(...))
    gl,                                   -- display(HTML(...))
    gl,                                   -- ! pip install ...
    rmt "publish" [lit "filename", lit "path", lit "title",
      lit "description", lit "name", lit "has_thumbnail", lit "thumbnail",
      lit "language", lit "page_type", lit "display_as", lit "order",
      lit "ipynb"] ]

/-- The notebook as a statement: the seed, the two authored function
definitions, then the remaining statements of both sections in order. -/
def program : Stmt :=
  .seq (.atom dg)
    (.seq (.funDef "f" .skip)
      (.seq (.funDef "data_to_plotly" (.forLoop 0 .skip))
        (.seq (stmtOfSteps (sec1.drop 1)) (stmtOfSteps sec2))))

/-- The executed step sequence of the notebook. -/
def steps : List Step := flatten trueBr program


end GPR

namespace ANN

open NB

/-!
### The approximate-nearest-neighbors scalability notebook

Translated statement-by-statement from the executed code cells.
-/

/-- Steps before the benchmark loop: the import cell, the seven literal
study parameters, `n_samples_values = np.logspace(...)`,
`rng = np.random.RandomState(42)`, `make_blobs(...)`, the two dataset
slices, and the seven metric-list initialisations. -/
def pre : List Step :=
  [ gl,                                   -- import cell with print(__doc__)
    gl,                                   -- n_samples_min .. n_iter literals
    dg,                                   -- n_samples_values = np.logspace(...).astype(np.int)
    dg,                                   -- rng = np.random.RandomState(42)
    dg,                                   -- all_data, _ = make_blobs(...)
    dg,                                   -- queries = all_data[:n_queries]
    dg,                                   -- index_data = all_data[n_queries:]
    gl ]                                  -- seven empty metric lists

/-- Steps at the head of each benchmark-loop iteration: the dataset slice,
`LSHForest(n_estimators=20, n_candidates=200, n_neighbors=10).fit(X)`,
`NearestNeighbors(algorithm=brute, metric=cosine, n_neighbors=10).fit(X)`
and the three per-size list initialisations. -/
def loopHead : List Step :=
  [ dg,                                   -- X = index_data[:n_samples]
    est (.estimatorConstruct "LSHForest"
      [lit "n_estimators", lit "n_candidates", lit "n_neighbors"]),
    est (.fit true false),
    est (.estimatorConstruct "NearestNeighbors"
      [lit "algorithm", lit "metric", lit "n_neighbors"]),
    est (.fit true false),
    gl, gl, gl ]                          -- time_approx, time_exact, accuracy = []

/-- Steps of one inner timing iteration: random query pick, a timed
`nbrs.kneighbors(query, return_distance=False)`, a timed
`lshf.kneighbors(query, return_distance=False)`, and the accuracy
append. -/
def inner : List Step :=
  [ dg,                                   -- query = queries[[rng.randint(0, n_queries)]]
    tmr,                                  -- t0 = time.time()
    est (.kneighbors (some false)),       -- exact_neighbors = nbrs.kneighbors(...)
    tmr,                                  -- time_exact.append(time.time() - t0)
    tmr,                                  -- t0 = time.time()
    est (.kneighbors (some false)),       -- approx_neighbors = lshf.kneighbors(...)
    tmr,                                  -- time_approx.append(time.time() - t0)
    gl ]                                  -- accuracy.append(np.in1d(...).mean())

/-- Steps at the tail of each benchmark-loop iteration: the six aggregate
computations, the progress print, and the seven metric appends. -/
def loopTail : List Step :=
  [ gl, gl, gl, gl, gl, gl,               -- averages, speedup, std computations
    gl,                                   -- print(...)
    gl, gl, gl, gl, gl, gl, gl ]          -- seven metric appends

/-- The benchmark loop: six sizes, five timing iterations per size. -/
def benchLoop : Stmt :=
  .forLoop 6
    (.seq (stmtOfSteps loopHead)
      (.seq (.forLoop 5 (stmtOfSteps inner)) (stmtOfSteps loopTail)))

/-- The query-time plotting cell. -/
def plot1 : List Step :=
  [ trc "Scatter" [datArg "x", datArg "y", datArg "error_y", lit "line",
      lit "name"],
    trc "Scatter" [datArg "x", datArg "y", lit "mode", lit "line",
      lit "name"],
    trc "Layout" [lit "title", lit "xaxis", lit "yaxis"],
    trc "Figure" [datArg "data", litv "layout"],
    rmt "iplot" [datArg "figure"] ]

/-- The speedup plotting cell. -/
def plot2 : List Step :=
  [ trc "Scatter" [datArg "x", datArg "y", datArg "error_y", lit "line"],
    trc "Layout" [lit "title", lit "xaxis", lit "yaxis"],
    trc "Figure" [datArg "data", litv "layout"],
    rmt "iplot" [datArg "figure"] ]

/-- The precision plotting cell. -/
def plot3 : List Step :=
  [ trc "Scatter" [datArg "x", datArg "y", datArg "error_y", lit "line"],
    trc "Layout" [lit "title", lit "xaxis", lit "yaxis"],
    trc "Figure" [datArg "data", litv "layout"],
    rmt "iplot" [datArg "figure"] ]

/-- The trailing publishing cell. -/
def trail : List Step :=
  [ gl, gl, gl,                           -- displays and pip shell line
    rmt "publish" [lit "filename", lit "path", lit "title",
      lit "description", lit "name", lit "has_thumbnail", lit "thumbnail",
      lit "language", lit "page_type", lit "display_as", lit "order",
      lit "ipynb"] ]

/-- The notebook as a statement. -/
def program : Stmt :=
  .seq (stmtOfSteps pre)
    (.seq benchLoop (stmtOfSteps (plot1 ++ plot2 ++ plot3 ++ trail)))

/-- The executed step sequence of the notebook. -/
def steps : List Step := flatten trueBr program

/-- Everything up to the end of the benchmark loop. -/
def compute : List Step := pre ++ flatten trueBr benchLoop

/-- The three plotting cells and the trailing publish cell. -/
def plots : List Step := plot1 ++ plot2 ++ plot3 ++ trail


end ANN

namespace NB

/-- All executed steps of the repository, in notebook order. -/
def allSteps : List Step := GPR.steps ++ ANN.steps

end NB

namespace NB

/-! ### Pipeline order and call extraction -/

/-- Rank of a step in the spec's four-step pipeline; steps of other kinds
are unranked. -/
def pipelineRank : StepKind → Option Nat
  | .dataGen => some 0
  | .estimator => some 1
  | .traceFormat => some 2
  | .remotePlot => some 3
  | _ => none

/-- The ranked subsequence of a step list. -/
def ranks (l : List Step) : List Nat :=
  l.filterMap fun s => pipelineRank s.kind

/-- Adjacent elements of a list of naturals are nondecreasing. -/
def nondecreasing : List Nat → Bool
  | [] => true
  | [_] => true
  | a :: b :: rest => Nat.ble a b && nondecreasing (b :: rest)

/-- A step list follows the pipeline order when its ranked steps are
nondecreasing: no step of a later kind is followed by a step of an
earlier kind. -/
def PipelineOrdered (l : List Step) : Prop :=
  nondecreasing (ranks l) = true

instance (l : List Step) : Decidable (PipelineOrdered l) :=
  inferInstanceAs (Decidable (nondecreasing (ranks l) = true))

/-- The `(hasX, hasY)` argument shapes of all `fit` calls in a step list. -/
def fitArgs (l : List Step) : List (Bool × Bool) :=
  l.filterMap fun s =>
    match s.call with
    | .fit a b => some (a, b)
    | _ => none

/-- The `return_std` keyword of every `predict` call in a step list. -/
def predictArgs (l : List Step) : List (Option Bool) :=
  l.filterMap fun s =>
    match s.call with
    | .predict r => some r
    | _ => none

/-- The `return_distance` keyword of every `kneighbors` call in a step
list. -/
def kneighborsArgs (l : List Step) : List (Option Bool) :=
  l.filterMap fun s =>
    match s.call with
    | .kneighbors r => some r
    | _ => none

def isConstructStep (s : Step) : Bool :=
  match s.call with
  | .estimatorConstruct _ _ => true
  | _ => false

def isFitStep (s : Step) : Bool :=
  match s.call with
  | .fit _ _ => true
  | _ => false

def isPredictStep (s : Step) : Bool :=
  match s.call with
  | .predict _ => true
  | _ => false

def isKneighborsStep (s : Step) : Bool :=
  match s.call with
  | .kneighbors _ => true
  | _ => false

def isTimerStep (s : Step) : Bool :=
  match s.kind with
  | .timerRead => true
  | _ => false

def isRemotePlotStep (s : Step) : Bool :=
  match s.kind with
  | .remotePlot => true
  | _ => false

def isTraceFormatStep (s : Step) : Bool :=
  match s.kind with
  | .traceFormat => true
  | _ => false

def isDataGenStep (s : Step) : Bool :=
  match s.kind with
  | .dataGen => true
  | _ => false

def isEstimatorStep (s : Step) : Bool :=
  match s.kind with
  | .estimator => true
  | _ => false

/-- Every `kneighbors` call is immediately preceded and immediately
followed by a `time.time()` read (and occurs at neither end of the
list). -/
def timersAroundKneighbors (l : List Step) : Bool :=
  ((l.zip l.tail).all fun p =>
    (!(isKneighborsStep p.2) || isTimerStep p.1) &&
    (!(isKneighborsStep p.1) || isTimerStep p.2)) &&
  (match l.head? with
   | some s => !(isKneighborsStep s)
   | none => true) &&
  (match l.getLast? with
   | some s => !(isKneighborsStep s)
   | none => true)

/-- The keyword arguments a call supplies to the ML or plotting library. -/
def callParams : ApiCall → List KwArg
  | .kernelConstruct ks => ks
  | .estimatorConstruct _ ks => ks
  | .plotCall _ ks => ks
  | _ => []

/-- All keyword arguments supplied by a step list. -/
def suppliedParams (l : List Step) : List KwArg :=
  (l.map fun s => callParams s.call).flatten

/-- The configuration parameters supplied by a step list: every keyword
argument that is not a data channel. -/
def configParams (l : List Step) : List KwArg :=
  (suppliedParams l).filter fun p => !p.dataChannel

def isFileWriteStep (s : Step) : Bool :=
  match s.kind with
  | .fileWrite => true
  | _ => false

/-! ### The claims as stated -/

/-- Claim C1 as stated: every `fit` call passes both X and y, every
`predict` call passes `return_std=True`, every `kneighbors` call passes
`return_distance=False`. -/
abbrev c1Stated : Prop :=
  (fitArgs allSteps).all (fun p => p.1 && p.2) = true ∧
  (predictArgs allSteps).all (fun r =>
    match r with
    | some true => true
    | _ => false) = true ∧
  (kneighborsArgs allSteps).all (fun r =>
    match r with
    | some false => true
    | _ => false) = true

/-- A notebook instantiates a model, calls fit and predict/query, times
the calls, and renders a chart remotely. -/
abbrev instrumented (l : List Step) : Prop :=
  l.any isConstructStep = true ∧
  l.any isFitStep = true ∧
  (l.any isPredictStep = true ∨ l.any isKneighborsStep = true) ∧
  l.any isTimerStep = true ∧
  l.any isRemotePlotStep = true

/-- Claim C2 as stated: every notebook is `instrumented`. -/
abbrev c2Stated : Prop :=
  instrumented GPR.steps ∧ instrumented ANN.steps

/-- Claim C3 as stated: the authored code contains no loops and no
branches. -/
abbrev c3Stated : Prop :=
  countLoops GPR.program = 0 ∧ countLoops ANN.program = 0 ∧
  countIfs GPR.program = 0 ∧ countIfs ANN.program = 0

/-- Claim C6 as stated: every configuration parameter supplied to the
estimators and to the plotting service is a literal constant. -/
abbrev c6Stated : Prop :=
  (configParams allSteps).all (fun p =>
    match p.src with
    | .literal => true
    | _ => false) = true

/-- Claim C7 as stated: each notebook's full step sequence follows the
four-step pipeline order. -/
abbrev c7Stated : Prop :=
  PipelineOrdered GPR.steps ∧ PipelineOrdered ANN.steps

end NB

namespace GPR

/-!
### Functional model of the authored helpers and the `p4` trace

`f(x) = x * np.sin(x)` maps elementwise over its argument and allocates a
new array; the sine function is abstracted as a parameter.
`data_to_plotly(x)` runs `k = []` and then
`for i in range(0, len(x)): k.append(x[i][0])`, which we model as an
index loop over an explicit loop state carrying the argument array `x`
and the accumulator `k`; `x[i][0]` fails (returns `none`) when row `i`
is empty.
-/

/-- Loop state of `data_to_plotly`: the argument array `x` and the
accumulator list `k`. -/
structure DState where
  x : List (List ℚ)
  k : List ℚ
deriving DecidableEq

/-- One loop iteration: `k.append(x[i][0])`, failing when `x[i]` does not
exist or row `x[i]` is empty. -/
def dStep (i : Nat) (s : DState) : Option DState :=
  match s.x[i]? with
  | none => none
  | some row =>
    match row.head? with
    | none => none
    | some v => some ⟨s.x, s.k ++ [v]⟩

/-- The loop over a list of indices. -/
def dRun : List Nat → DState → Option DState
  | [], s => some s
  | i :: is, s =>
    match dStep i s with
    | none => none
    | some s2 => dRun is s2

/-- `data_to_plotly`: run the index loop over `range(0, len(x))` starting
from `k = []` and return the final accumulator. -/
def data_to_plotly (x : List (List ℚ)) : Option (List ℚ) :=
  (dRun (List.range x.length) ⟨x, []⟩).map DState.k

/-- `f(x) = x * np.sin(x)`, elementwise over the argument. -/
def f (sin : ℚ → ℚ) (x : List ℚ) : List ℚ :=
  x.map fun v => v * sin v

/-- Calling `f` against a heap of arrays: the result is a freshly
allocated array appended to the heap (numpy elementwise multiplication
allocates; it does not write into its operands). -/
def fCall (sin : ℚ → ℚ) (h : List (List ℚ)) (a : Nat) :
    List (List ℚ) × Nat :=
  (h ++ [f sin (h.getD a [])], h.length)

/-- `np.linspace(a, b, num)`: `num` evenly spaced points from `a` to `b`
inclusive. -/
def linspace (a b : ℚ) (num : Nat) : List ℚ :=
  (List.range num).map fun i : Nat => a + (b - a) * (i : ℚ) / ((num : ℚ) - 1)

/-- The evaluation mesh `x = np.atleast_2d(np.linspace(0, 10, 1000)).T`,
a 1000-row column. -/
def x_mesh : List (List ℚ) :=
  (linspace 0 10 1000).map fun v => [v]

/-- The x sequence of the confidence-interval trace `p4` in both the
noiseless and the noisy plotting cell:
`data_to_plotly(np.concatenate([x, x[::-1]]))`. -/
def p4_x : Option (List ℚ) :=
  data_to_plotly (x_mesh ++ x_mesh.reverse)

/-- The y sequence of `p4` in both plotting cells:
`np.concatenate([y_pred - 1.9600 * sigma,])` — a one-element concatenate,
so only the lower confidence band; the upper band
`y_pred + 1.9600 * sigma` is never included. -/
def p4_y (y_pred sigma : List ℚ) : List ℚ :=
  List.zipWith (fun yp s => yp - (196 / 100) * s) y_pred sigma

end GPR

namespace ANN

/-!
### Functional model of the benchmark loop's metric accumulation

Wall-clock times and accuracies are measurements; the model abstracts
them as an oracle `meas` giving, for dataset size `ns` and inner
iteration `i`, the exact query time, the approximate query time and the
accuracy of that iteration.  `np.std` takes a square root, abstracted as
a parameter.

`n_samples_values = np.logspace(np.log10(n_samples_min),
np.log10(n_samples_max), n_steps).astype(np.int)` is modelled exactly:
`np.log10` of the two powers of ten is their integer logarithm,
`np.logspace` is ten to the `np.linspace` grid of exponents (the
rationals `3, 17/5, 19/5, 21/5, 23/5, 5`), and `astype(np.int)`
truncates towards zero, so entry `10 ^ (p / q)` becomes the largest `n`
with `n ^ q ≤ 10 ^ p`, computed by an exact integer binary search.
-/

def n_samples_min : Nat := 1000

def n_samples_max : Nat := 100000

def n_steps : Nat := 6

def n_iter : Nat := 5

/-- Integer base-10 logarithm (`np.log10` on these exact powers of ten
returns the exact integer exponent); the first argument is recursion
fuel. -/
def log10fuel : Nat → Nat → Nat
  | 0, _ => 0
  | fuel + 1, n => if n < 10 then 0 else log10fuel fuel (n / 10) + 1

/-- `np.log10` restricted to the powers of ten it is applied to. -/
def log10Nat (n : Nat) : Nat := log10fuel n n

/-- Binary search for the largest `n` with `n ^ q ≤ m`, maintaining the
invariant `lo ^ q ≤ m < hi ^ q`; the first argument is recursion fuel. -/
def rootFloorGo (m q : Nat) : Nat → Nat → Nat → Nat
  | 0, lo, _ => lo
  | fuel + 1, lo, hi =>
    if hi ≤ lo + 1 then lo
    else
      let mid := (lo + hi) / 2
      if mid ^ q ≤ m then rootFloorGo m q fuel mid hi
      else rootFloorGo m q fuel lo mid

/-- The largest `n` with `n ^ q ≤ m` (for `q ≥ 1`). -/
def rootFloor (m q : Nat) : Nat :=
  rootFloorGo m q (m + 2) 0 (m + 1)

/-- `int(10 ** e)` for a nonnegative rational exponent `e = p / q`:
the largest `n` with `n ^ q ≤ 10 ^ p`. -/
def pow10trunc (e : ℚ) : Nat :=
  rootFloor (10 ^ e.num.toNat) e.den

/-- The exponent grid `np.linspace(np.log10(n_samples_min),
np.log10(n_samples_max), n_steps)`. -/
def n_samples_exponents : List ℚ :=
  GPR.linspace (log10Nat n_samples_min) (log10Nat n_samples_max) n_steps

/-- `n_samples_values = np.logspace(np.log10(n_samples_min),
np.log10(n_samples_max), n_steps).astype(np.int)`. -/
def n_samples_values : List Nat :=
  n_samples_exponents.map pow10trunc

/-- Adjacent elements of a list of naturals are strictly increasing. -/
def strictlyIncreasing : List Nat → Bool
  | [] => true
  | [_] => true
  | a :: b :: rest => Nat.blt a b && strictlyIncreasing (b :: rest)

/-- The seven metric lists accumulated by the benchmark loop. -/
structure Metrics where
  average_times_exact : List ℚ
  average_times_approx : List ℚ
  std_times_approx : List ℚ
  accuracies : List ℚ
  std_accuracies : List ℚ
  average_speedups : List ℚ
  std_speedups : List ℚ

/-- The metric lists before the loop: all empty. -/
def emptyMetrics : Metrics := ⟨[], [], [], [], [], [], []⟩

/-- `np.mean`. -/
def mean (l : List ℚ) : ℚ := l.sum / l.length

/-- The mean squared deviation from the mean. -/
def variance (l : List ℚ) : ℚ := mean (l.map fun v => (v - mean l) ^ 2)

/-- `np.std`, with the square root abstracted. -/
def stdDev (sqrt : ℚ → ℚ) (l : List ℚ) : ℚ := sqrt (variance l)

/-- The `time_exact` list built by the inner loop at size `ns`. -/
def time_exact (meas : Nat → Nat → ℚ × ℚ × ℚ) (ns : Nat) : List ℚ :=
  (List.range n_iter).map fun i => (meas ns i).1

/-- The `time_approx` list built by the inner loop at size `ns`. -/
def time_approx (meas : Nat → Nat → ℚ × ℚ × ℚ) (ns : Nat) : List ℚ :=
  (List.range n_iter).map fun i => (meas ns i).2.1

/-- The `accuracy` list built by the inner loop at size `ns`. -/
def accuracy (meas : Nat → Nat → ℚ × ℚ × ℚ) (ns : Nat) : List ℚ :=
  (List.range n_iter).map fun i => (meas ns i).2.2

/-- `speedup = np.array(time_exact) / np.array(time_approx)`. -/
def speedup (meas : Nat → Nat → ℚ × ℚ × ℚ) (ns : Nat) : List ℚ :=
  List.zipWith (fun a b => a / b) (time_exact meas ns) (time_approx meas ns)

/-- One iteration of the benchmark loop: the seven appends performed at
its end, in source order. -/
def benchStep (sqrt : ℚ → ℚ) (meas : Nat → Nat → ℚ × ℚ × ℚ)
    (m : Metrics) (ns : Nat) : Metrics where
  average_times_exact :=
    m.average_times_exact ++ [mean (time_exact meas ns)]
  average_times_approx :=
    m.average_times_approx ++ [mean (time_approx meas ns)]
  std_times_approx :=
    m.std_times_approx ++ [stdDev sqrt (time_approx meas ns)]
  accuracies := m.accuracies ++ [mean (accuracy meas ns)]
  std_accuracies := m.std_accuracies ++ [stdDev sqrt (accuracy meas ns)]
  average_speedups := m.average_speedups ++ [mean (speedup meas ns)]
  std_speedups := m.std_speedups ++ [stdDev sqrt (speedup meas ns)]

/-- The benchmark loop over `n_samples_values`. -/
def benchRun (sqrt : ℚ → ℚ) (meas : Nat → Nat → ℚ × ℚ × ℚ) : Metrics :=
  n_samples_values.foldl (benchStep sqrt meas) emptyMetrics

end ANN

namespace Claims

open NB

/-- A concrete failure oracle: every remote plotting call raises
error 7. -/
def failAtRemote : Step → Option Nat := fun s =>
  match s.kind with
  | .remotePlot => some 7
  | _ => none

end Claims

namespace NB

theorem runSteps_append (o : Step → Option Nat) (l₁ l₂ : List Step) :
    runSteps o (l₁ ++ l₂) =
      match runSteps o l₁ with
      | .ok _ => runSteps o l₂
      | .error e => .error e := by
  induction l₁ with
  | nil => simp [runSteps]
  | cons s rest ih =>
    simp only [List.cons_append, runSteps]
    cases o s with
    | some e => rfl
    | none => exact ih

/-- For handler-free code, running a statement is exactly running its
flattened step sequence: each library error propagates unchanged. -/
theorem run_eq_runSteps (o : Step → Option Nat) (br : Step → Bool) :
    ∀ p : Stmt, hasTry p = false → run o br p = runSteps o (flatten br p)
  | .skip, _ => by simp [run, flatten, runSteps]
  | .atom s, _ => by
    cases h : o s <;> simp [run, flatten, runSteps, h]
  | .seq a b, h => by
    simp only [hasTry, Bool.or_eq_false_iff] at h
    simp only [run, flatten, runSteps_append,
      run_eq_runSteps o br a h.1, run_eq_runSteps o br b h.2]
  | .forLoop n body, h => by
    simp only [hasTry] at h
    induction n with
    | zero => simp [run, runTimes, flatten, runSteps]
    | succ n ih =>
      simp only [run, runTimes, flatten, List.replicate_succ,
        List.flatten_cons, runSteps_append, run_eq_runSteps o br body h]
      simp only [run, flatten] at ih
      rw [← ih]
  | .funDef _ _, _ => by simp [run, flatten, runSteps]
  | .ifElse c t e, h => by
    simp only [hasTry, Bool.or_eq_false_iff] at h
    simp only [run, flatten, runSteps]
    cases o c with
    | some err => rfl
    | none =>
      by_cases hc : br c
      · simp [hc, run_eq_runSteps o br t h.1]
      · simp [hc, run_eq_runSteps o br e h.2]
  | .tryCatch _ _, h => by simp [hasTry] at h

/-- `runSteps` returns the first error the oracle raises on the list. -/
theorem runSteps_eq_findSome (o : Step → Option Nat) (l : List Step) :
    runSteps o l =
      match l.findSome? o with
      | some e => .error e
      | none => .ok () := by
  induction l with
  | nil => rfl
  | cons s rest ih =>
    simp only [runSteps, List.findSome?]
    cases o s with
    | some e => rfl
    | none => exact ih

end NB

namespace GPR

open NB

set_option maxRecDepth 8000 in
theorem gpr_steps_eq : steps = sec1 ++ sec2 := by
  decide

theorem dRun_x_eq :
    ∀ (is : List Nat) (s s2 : DState), dRun is s = some s2 → s2.x = s.x := by
  intro is
  induction is with
  | nil =>
    intro s s2 h
    simp only [dRun, Option.some.injEq] at h
    rw [← h]
  | cons i is ih =>
    intro s s2 h
    simp only [dRun, dStep] at h
    cases hg : s.x[i]? with
    | none => simp [hg] at h
    | some row =>
      simp only [hg] at h
      cases hh : row.head? with
      | none => simp [hh] at h
      | some v =>
        simp only [hh] at h
        exact ih ⟨s.x, s.k ++ [v]⟩ s2 h

theorem dRun_map_succ :
    ∀ (is : List Nat) (r : List ℚ) (xs : List (List ℚ)) (k : List ℚ),
      dRun (is.map Nat.succ) ⟨r :: xs, k⟩ =
        (dRun is ⟨xs, k⟩).map fun s => ⟨r :: xs, s.k⟩ := by
  intro is
  induction is with
  | nil => intro r xs k; simp [dRun]
  | cons i is ih =>
    intro r xs k
    simp only [List.map_cons, dRun, dStep, List.getElem?_cons_succ]
    cases hg : xs[i]? with
    | none => simp [hg]
    | some row =>
      simp only [hg]
      cases hh : row.head? with
      | none => simp [hh]
      | some v =>
        simp only [hh]
        exact ih r xs (k ++ [v])

theorem dRun_range_nonempty :
    ∀ (x : List (List ℚ)), (∀ r ∈ x, r ≠ []) → ∀ (k : List ℚ),
      dRun (List.range x.length) ⟨x, k⟩ =
        some ⟨x, k ++ x.map fun r => r.headD 0⟩ := by
  intro x
  induction x with
  | nil => intro _ k; simp [dRun]
  | cons r xs ih =>
    intro h k
    have hr : r ≠ [] := h r (List.mem_cons_self r xs)
    obtain ⟨v, rest, rfl⟩ : ∃ v rest, r = v :: rest := by
      cases r with
      | nil => exact absurd rfl hr
      | cons v rest => exact ⟨v, rest, rfl⟩
    rw [List.length_cons, List.range_succ_eq_map]
    simp only [dRun, dStep, List.getElem?_cons_zero, List.head?]
    rw [dRun_map_succ, ih (fun r hrx => h r (List.mem_cons_of_mem _ hrx))]
    simp

theorem dRun_range_empty_row :
    ∀ (x : List (List ℚ)), [] ∈ x → ∀ (k : List ℚ),
      dRun (List.range x.length) ⟨x, k⟩ = none := by
  intro x
  induction x with
  | nil => intro h; exact absurd h (List.not_mem_nil _)
  | cons r xs ih =>
    intro h k
    rw [List.length_cons, List.range_succ_eq_map]
    cases r with
    | nil => simp [dRun, dStep]
    | cons v rest =>
      have hxs : [] ∈ xs := by
        rcases List.mem_cons.mp h with h1 | h1
        · exact absurd h1.symm (List.cons_ne_nil v rest)
        · exact h1
      simp only [dRun, dStep, List.getElem?_cons_zero, List.head?]
      rw [dRun_map_succ, ih hxs]
      rfl

theorem data_to_plotly_nonempty (x : List (List ℚ)) (h : ∀ r ∈ x, r ≠ []) :
    data_to_plotly x = some (x.map fun r => r.headD 0) := by
  unfold data_to_plotly
  rw [dRun_range_nonempty x h []]
  rfl

theorem data_to_plotly_empty_row (x : List (List ℚ)) (h : [] ∈ x) :
    data_to_plotly x = none := by
  unfold data_to_plotly
  rw [dRun_range_empty_row x h []]
  rfl

end GPR

namespace ANN

open NB

set_option maxRecDepth 8000 in
theorem ann_steps_eq : steps = compute ++ plots := by
  decide

theorem benchFold_proj (sqrt : ℚ → ℚ) (meas : Nat → Nat → ℚ × ℚ × ℚ)
    (g : Metrics → List ℚ) (upd : Nat → ℚ)
    (hg : ∀ m ns, g (benchStep sqrt meas m ns) = g m ++ [upd ns]) :
    ∀ (l : List Nat) (m : Metrics),
      g (l.foldl (benchStep sqrt meas) m) = g m ++ l.map upd := by
  intro l
  induction l with
  | nil => intro m; simp
  | cons ns l ih =>
    intro m
    rw [List.foldl_cons, ih, hg, List.map_cons, List.append_assoc,
      List.singleton_append]

set_option maxRecDepth 8000 in
/-- The modelled `np.logspace(np.log10(n_samples_min),
np.log10(n_samples_max), n_steps).astype(np.int)` computation evaluates
to the index sizes also recorded in the notebook's executed output. -/
theorem n_samples_values_eq :
    n_samples_values = [1000, 2511, 6309, 15848, 39810, 100000] := by
  with_unfolding_all rfl

end ANN

namespace Claims

open NB

set_option maxRecDepth 8000 in
/-- C1 counterexample: the claim that every `fit` call receives both a
sample matrix X and a target vector y is false — the nearest-neighbors
notebook calls `LSHForest(...).fit(X)` and `NearestNeighbors(...).fit(X)`
with X alone. -/
theorem c1_counterexample : ¬ c1Stated := by
  decide

set_option maxRecDepth 8000 in
/-- C1 amended: every `predict` call passes `return_std=True`, every
`kneighbors` call passes `return_distance=False`, and every `fit` call
passes a sample matrix X; the Gaussian Process notebook's `fit` calls
also pass a target vector y, while both `fit` calls of the
nearest-neighbors notebook (repeated for each of the six benchmark sizes)
pass X alone. -/
theorem c1_amended :
    (predictArgs allSteps).all (fun r =>
      match r with
      | some true => true
      | _ => false) = true ∧
    (kneighborsArgs allSteps).all (fun r =>
      match r with
      | some false => true
      | _ => false) = true ∧
    (fitArgs allSteps).all (fun p => p.1) = true ∧
    (fitArgs GPR.steps).all (fun p => p.2) = true ∧
    (fitArgs ANN.steps).all (fun p => !p.2) = true := by
  decide

set_option maxRecDepth 8000 in
/-- C2 counterexample: the claim that every notebook measures the elapsed
wall-clock time of its model calls is false — the Gaussian Process
notebook contains no timing statement at all. -/
theorem c2_counterexample : ¬ c2Stated := by
  decide

set_option maxRecDepth 8000 in
/-- C2 amended: every notebook instantiates library models, calls their
fit and predict/query API and renders charts through the remote plotting
service; the nearest-neighbors notebook additionally measures the
elapsed wall-clock time of each `kneighbors` call (every such call sits
between two `time.time()` reads), but the Gaussian Process notebook
performs no timing. -/
theorem c2_amended :
    GPR.steps.any isConstructStep = true ∧
    GPR.steps.any isFitStep = true ∧
    GPR.steps.any isPredictStep = true ∧
    GPR.steps.any isRemotePlotStep = true ∧
    GPR.steps.any isTimerStep = false ∧
    ANN.steps.any isConstructStep = true ∧
    ANN.steps.any isFitStep = true ∧
    ANN.steps.any isKneighborsStep = true ∧
    ANN.steps.any isTimerStep = true ∧
    ANN.steps.any isRemotePlotStep = true ∧
    timersAroundKneighbors ANN.steps = true := by
  decide

/-- C3 counterexample: the claim that the repository authors no loops and
no branches is false — the nearest-neighbors notebook authors two nested
benchmark loops (and `data_to_plotly` authors one more). -/
theorem c3_counterexample : ¬ c3Stated := by
  decide

/-- C3 amended: the repository does author control flow, namely exactly
three `for` loops — the element-copy loop inside `data_to_plotly`, the
benchmark loop over the dataset sizes and the inner timing loop — but no
conditional branch and no exception handler; the authored state
management is limited to the benchmark metric lists accumulated across
the loop. -/
theorem c3_amended :
    countLoops GPR.program = 1 ∧ countLoops ANN.program = 2 ∧
    countIfs GPR.program = 0 ∧ countIfs ANN.program = 0 ∧
    hasTry GPR.program = false ∧ hasTry ANN.program = false := by
  decide

/-- C5: neither notebook authors an exception handler, and for every
failure oracle the result of running a notebook is exactly the first
error raised by a called-library step of its executed step sequence,
propagated unchanged to the top level — no recovery, retry or fallback. -/
theorem c5_no_recovery :
    hasTry GPR.program = false ∧ hasTry ANN.program = false ∧
    ∀ (o : Step → Option Nat) (br : Step → Bool),
      (run o br GPR.program =
        match (flatten br GPR.program).findSome? o with
        | some e => Except.error e
        | none => Except.ok ()) ∧
      (run o br ANN.program =
        match (flatten br ANN.program).findSome? o with
        | some e => Except.error e
        | none => Except.ok ()) := by
  refine ⟨by decide, by decide, fun o br => ⟨?_, ?_⟩⟩ <;>
    rw [run_eq_runSteps o br _ (by decide), runSteps_eq_findSome]


/-- Witness for C5 at the concrete oracle that fails every remote
plotting call. -/
theorem c5_no_recovery_witness :
    (run failAtRemote trueBr GPR.program =
      match (flatten trueBr GPR.program).findSome? failAtRemote with
      | some e => Except.error e
      | none => Except.ok ()) ∧
    (run failAtRemote trueBr ANN.program =
      match (flatten trueBr ANN.program).findSome? failAtRemote with
      | some e => Except.error e
      | none => Except.ok ()) :=
  c5_no_recovery.2.2 failAtRemote trueBr

set_option maxRecDepth 8000 in
/-- C6 counterexample: the claim that every parameter supplied to the
estimators and the plotting service is a literal constant is false — the
noisy-case `GaussianProcessRegressor` receives the data-dependent
regularization `alpha=(dy / y) ** 2` (and the `kernel` argument is a
variable, though one built only from literals). -/
theorem c6_counterexample : ¬ c6Stated := by
  decide

set_option maxRecDepth 8000 in
/-- C6 amended: every configuration parameter supplied to the estimators
and to the plotting service is a literal constant or a variable built
only from literal constants (the `kernel` and `layout` objects), with a
single exception: the noisy-case `alpha=(dy / y) ** 2`, which is computed
from data.  (The chart/fit/predict data arrays are data channels, not
configuration parameters.) -/
theorem c6_amended :
    (configParams allSteps).filter (fun p =>
      match p.src with
      | .dataDerived => true
      | _ => false) = [⟨"alpha", .dataDerived, false⟩] ∧
    ((configParams allSteps).filter (fun p =>
      match p.src with
      | .literalDerived => true
      | _ => false)).all
        (fun p => p.argName == "kernel" || p.argName == "layout") = true := by
  decide

set_option maxRecDepth 8000 in
/-- C7 counterexample: the claim that in every execution no pipeline step
of a later kind is followed by a step of an earlier kind is false — in
the Gaussian Process notebook the noisy section's fit and predict calls
follow the noiseless section's remote plotting call, and in the
nearest-neighbors notebook dataset-selection steps inside the benchmark
loop follow earlier fit calls. -/
theorem c7_counterexample : ¬ c7Stated := by
  decide

set_option maxRecDepth 8000 in
/-- C7 amended: the four-step pipeline order holds sectionwise, not
globally.  In the Gaussian Process notebook each of the two example
sections follows the order data → fit/predict → traces → remote plot,
but the whole notebook does not (the noisy section restarts the pipeline
after the first remote plotting call).  In the nearest-neighbors
notebook every computation step precedes every chart-construction and
plotting step, and each plotting cell builds its traces before its
remote plotting call, but the compute section itself interleaves dataset
selection with estimator calls inside the benchmark loop. -/
theorem c7_amended :
    GPR.steps = GPR.sec1 ++ GPR.sec2 ∧
    PipelineOrdered GPR.sec1 ∧ PipelineOrdered GPR.sec2 ∧
    ¬ PipelineOrdered GPR.steps ∧
    ANN.steps = ANN.compute ++ ANN.plots ∧
    ANN.compute.all
      (fun s => !(isTraceFormatStep s) && !(isRemotePlotStep s)) = true ∧
    ANN.plots.all
      (fun s => !(isDataGenStep s) && !(isEstimatorStep s)) = true ∧
    PipelineOrdered ANN.plot1 ∧ PipelineOrdered ANN.plot2 ∧
    PipelineOrdered (ANN.plot3 ++ ANN.trail) ∧
    ¬ PipelineOrdered ANN.compute := by
  decide

end Claims


namespace Claims

open NB

/-- C8: for a two-dimensional array all of whose rows are non-empty,
`data_to_plotly(x)` returns the list of length `len(x)` whose i-th
element is `x[i][0]` (the first column of `x` as a flat list); if some
row of `x` is empty, the indexing `x[i][0]` fails. -/
theorem c8_data_to_plotly (x : List (List ℚ)) :
    ((∀ r ∈ x, r ≠ []) →
      GPR.data_to_plotly x = some (x.map fun r => r.headD 0) ∧
      (x.map fun r => r.headD 0).length = x.length) ∧
    ((∃ r ∈ x, r = []) → GPR.data_to_plotly x = none) := by
  constructor
  · intro h
    exact ⟨GPR.data_to_plotly_nonempty x h, x.length_map _⟩
  · rintro ⟨r, hr, rfl⟩
    exact GPR.data_to_plotly_empty_row x hr

/-- Witness for C8 at the concrete inputs `[[1], [2, 3]]` (all rows
non-empty) and `[[4], []]` (second row empty). -/
theorem c8_data_to_plotly_witness :
    GPR.data_to_plotly [[(1 : ℚ)], [2, 3]] = some [1, 2] ∧
    GPR.data_to_plotly [[(4 : ℚ)], []] = none := by
  constructor
  · exact (((c8_data_to_plotly [[(1 : ℚ)], [2, 3]]).1 (by decide)).1).trans
      (by decide)
  · exact (c8_data_to_plotly [[(4 : ℚ)], []]).2 ⟨[], by decide, rfl⟩

set_option maxRecDepth 8000 in
/-- C4: in both the noiseless and the noisy plotting cell, the
confidence-interval trace `p4` pairs an x sequence of length
`2 * len(x) = 2000` (`x` concatenated with its reverse) with a y
sequence of length `len(x) = 1000` (only the lower band
`y_pred - 1.9600 * sigma`; `np.concatenate([y_pred - 1.9600 * sigma,])`
never includes the upper band), so the x and y lengths of the trace
always differ. -/
theorem c4_p4_length_mismatch (y_pred sigma : List ℚ)
    (h1 : y_pred.length = 1000) (h2 : sigma.length = 1000) :
    ∃ xs, GPR.p4_x = some xs ∧ xs.length = 2 * 1000 ∧
      (GPR.p4_y y_pred sigma).length = 1000 ∧
      xs.length ≠ (GPR.p4_y y_pred sigma).length := by
  have hrows : ∀ r ∈ GPR.x_mesh ++ GPR.x_mesh.reverse, r ≠ [] := by
    intro r hr
    have : r ∈ GPR.x_mesh ∨ r ∈ GPR.x_mesh.reverse := List.mem_append.mp hr
    have hmem : r ∈ GPR.x_mesh := by
      rcases this with h | h
      · exact h
      · exact List.mem_reverse.mp h
    obtain ⟨v, _, rfl⟩ := List.mem_map.mp hmem
    exact List.cons_ne_nil v []
  have hmeshlen : GPR.x_mesh.length = 1000 := by
    unfold GPR.x_mesh GPR.linspace
    rw [List.length_map, List.length_map, List.length_range]
  have hxlen : ((GPR.x_mesh ++ GPR.x_mesh.reverse).map
      fun r => r.headD 0).length = 2 * 1000 := by
    rw [List.length_map, List.length_append, List.length_reverse, hmeshlen]
  have hylen : (GPR.p4_y y_pred sigma).length = 1000 := by
    rw [GPR.p4_y, List.length_zipWith, h1, h2, min_self]
  unfold GPR.p4_x
  refine ⟨(GPR.x_mesh ++ GPR.x_mesh.reverse).map fun r => r.headD 0,
    GPR.data_to_plotly_nonempty _ hrows, hxlen, hylen, ?_⟩
  rw [hxlen, hylen]
  decide

/-- Witness for C4 at concrete 1000-element prediction and sigma
vectors. -/
theorem c4_p4_length_mismatch_witness :
    ∃ xs, GPR.p4_x = some xs ∧ xs.length = 2 * 1000 ∧
      (GPR.p4_y (List.replicate 1000 0) (List.replicate 1000 0)).length
        = 1000 ∧
      xs.length ≠
        (GPR.p4_y (List.replicate 1000 0)
          (List.replicate 1000 0)).length :=
  c4_p4_length_mismatch (List.replicate 1000 0) (List.replicate 1000 0)
    (List.length_replicate 1000 0) (List.length_replicate 1000 0)

set_option maxRecDepth 8000 in
/-- C10: no persistent state is authored.  The helper `data_to_plotly`
leaves its argument array unchanged throughout its loop, `f` allocates
its result as a fresh array and leaves every existing heap cell
unchanged, and no executed step of either notebook writes to a local
persistent store. -/
theorem c10_no_persistence :
    (∀ (is : List Nat) (s s2 : GPR.DState),
      GPR.dRun is s = some s2 → s2.x = s.x) ∧
    (∀ (sin : ℚ → ℚ) (h : List (List ℚ)) (a j : Nat), j < h.length →
      ((GPR.fCall sin h a).1)[j]? = h[j]?) ∧
    allSteps.all (fun s => !(isFileWriteStep s)) = true := by
  refine ⟨GPR.dRun_x_eq, fun sin h a j hj => ?_, by decide⟩
  simp [GPR.fCall, List.getElem?_append, hj]

set_option maxRecDepth 8000 in
/-- Witness for C10: the loop run over `[[1]]` preserves the argument
array, and calling `f` on cell 0 of the one-cell heap `[[1]]` leaves
that cell readable unchanged. -/
theorem c10_no_persistence_witness :
    (⟨[[(1 : ℚ)]], [1]⟩ : GPR.DState).x = (⟨[[(1 : ℚ)]], []⟩ : GPR.DState).x ∧
    ((GPR.fCall id [[(1 : ℚ)]] 0).1)[0]? = [[(1 : ℚ)]][0]? :=
  ⟨c10_no_persistence.1 [0] ⟨[[(1 : ℚ)]], []⟩ ⟨[[(1 : ℚ)]], [1]⟩ (by decide),
   c10_no_persistence.2.1 id [[(1 : ℚ)]] 0 0 (by decide)⟩

end Claims

namespace Claims

open NB

set_option maxRecDepth 8000 in
/-- C9: `n_samples_values` holds exactly `n_steps = 6` strictly
increasing integers from 1000 to 100000, and after the benchmark loop
each of the seven metric lists holds exactly one entry per element of
`n_samples_values`, appended in the same order (for any measurement
oracle and any square-root function). -/
theorem c9_metric_lists (sqrt : ℚ → ℚ) (meas : Nat → Nat → ℚ × ℚ × ℚ) :
    ANN.n_samples_values.length = ANN.n_steps ∧
    ANN.n_steps = 6 ∧
    ANN.strictlyIncreasing ANN.n_samples_values = true ∧
    ANN.n_samples_values.head? = some ANN.n_samples_min ∧
    ANN.n_samples_values.getLast? = some ANN.n_samples_max ∧
    (ANN.benchRun sqrt meas).average_times_exact =
      ANN.n_samples_values.map (fun ns => ANN.mean (ANN.time_exact meas ns)) ∧
    (ANN.benchRun sqrt meas).average_times_approx =
      ANN.n_samples_values.map (fun ns => ANN.mean (ANN.time_approx meas ns)) ∧
    (ANN.benchRun sqrt meas).std_times_approx =
      ANN.n_samples_values.map
        (fun ns => ANN.stdDev sqrt (ANN.time_approx meas ns)) ∧
    (ANN.benchRun sqrt meas).accuracies =
      ANN.n_samples_values.map (fun ns => ANN.mean (ANN.accuracy meas ns)) ∧
    (ANN.benchRun sqrt meas).std_accuracies =
      ANN.n_samples_values.map
        (fun ns => ANN.stdDev sqrt (ANN.accuracy meas ns)) ∧
    (ANN.benchRun sqrt meas).average_speedups =
      ANN.n_samples_values.map (fun ns => ANN.mean (ANN.speedup meas ns)) ∧
    (ANN.benchRun sqrt meas).std_speedups =
      ANN.n_samples_values.map
        (fun ns => ANN.stdDev sqrt (ANN.speedup meas ns)) := by
  refine ⟨by rw [ANN.n_samples_values_eq]; rfl, rfl,
    by rw [ANN.n_samples_values_eq]; decide,
    by rw [ANN.n_samples_values_eq]; rfl,
    by rw [ANN.n_samples_values_eq]; rfl,
    ?_, ?_, ?_, ?_, ?_, ?_, ?_⟩
  · simpa [ANN.benchRun, ANN.emptyMetrics] using
      ANN.benchFold_proj sqrt meas (fun m => m.average_times_exact)
        (fun ns => ANN.mean (ANN.time_exact meas ns)) (fun m ns => rfl)
        ANN.n_samples_values ANN.emptyMetrics
  · simpa [ANN.benchRun, ANN.emptyMetrics] using
      ANN.benchFold_proj sqrt meas (fun m => m.average_times_approx)
        (fun ns => ANN.mean (ANN.time_approx meas ns)) (fun m ns => rfl)
        ANN.n_samples_values ANN.emptyMetrics
  · simpa [ANN.benchRun, ANN.emptyMetrics] using
      ANN.benchFold_proj sqrt meas (fun m => m.std_times_approx)
        (fun ns => ANN.stdDev sqrt (ANN.time_approx meas ns)) (fun m ns => rfl)
        ANN.n_samples_values ANN.emptyMetrics
  · simpa [ANN.benchRun, ANN.emptyMetrics] using
      ANN.benchFold_proj sqrt meas (fun m => m.accuracies)
        (fun ns => ANN.mean (ANN.accuracy meas ns)) (fun m ns => rfl)
        ANN.n_samples_values ANN.emptyMetrics
  · simpa [ANN.benchRun, ANN.emptyMetrics] using
      ANN.benchFold_proj sqrt meas (fun m => m.std_accuracies)
        (fun ns => ANN.stdDev sqrt (ANN.accuracy meas ns)) (fun m ns => rfl)
        ANN.n_samples_values ANN.emptyMetrics
  · simpa [ANN.benchRun, ANN.emptyMetrics] using
      ANN.benchFold_proj sqrt meas (fun m => m.average_speedups)
        (fun ns => ANN.mean (ANN.speedup meas ns)) (fun m ns => rfl)
        ANN.n_samples_values ANN.emptyMetrics
  · simpa [ANN.benchRun, ANN.emptyMetrics] using
      ANN.benchFold_proj sqrt meas (fun m => m.std_speedups)
        (fun ns => ANN.stdDev sqrt (ANN.speedup meas ns)) (fun m ns => rfl)
        ANN.n_samples_values ANN.emptyMetrics

/-- Witness for C9 at a concrete square root and a concrete constant
measurement oracle. -/
theorem c9_metric_lists_witness :
    ANN.n_samples_values.length = ANN.n_steps ∧
    ANN.n_steps = 6 ∧
    ANN.strictlyIncreasing ANN.n_samples_values = true ∧
    ANN.n_samples_values.head? = some ANN.n_samples_min ∧
    ANN.n_samples_values.getLast? = some ANN.n_samples_max ∧
    (ANN.benchRun id fun _ _ => (1, 1, 1)).average_times_exact =
      ANN.n_samples_values.map
        (fun ns => ANN.mean (ANN.time_exact (fun _ _ => (1, 1, 1)) ns)) ∧
    (ANN.benchRun id fun _ _ => (1, 1, 1)).average_times_approx =
      ANN.n_samples_values.map
        (fun ns => ANN.mean (ANN.time_approx (fun _ _ => (1, 1, 1)) ns)) ∧
    (ANN.benchRun id fun _ _ => (1, 1, 1)).std_times_approx =
      ANN.n_samples_values.map
        (fun ns => ANN.stdDev id (ANN.time_approx (fun _ _ => (1, 1, 1)) ns)) ∧
    (ANN.benchRun id fun _ _ => (1, 1, 1)).accuracies =
      ANN.n_samples_values.map
        (fun ns => ANN.mean (ANN.accuracy (fun _ _ => (1, 1, 1)) ns)) ∧
    (ANN.benchRun id fun _ _ => (1, 1, 1)).std_accuracies =
      ANN.n_samples_values.map
        (fun ns => ANN.stdDev id (ANN.accuracy (fun _ _ => (1, 1, 1)) ns)) ∧
    (ANN.benchRun id fun _ _ => (1, 1, 1)).average_speedups =
      ANN.n_samples_values.map
        (fun ns => ANN.mean (ANN.speedup (fun _ _ => (1, 1, 1)) ns)) ∧
    (ANN.benchRun id fun _ _ => (1, 1, 1)).std_speedups =
      ANN.n_samples_values.map
        (fun ns => ANN.stdDev id (ANN.speedup (fun _ _ => (1, 1, 1)) ns)) :=
  c9_metric_lists id fun _ _ => (1, 1, 1)

end Claims
